import Mathlib

/-!
Formal model of the RABIES diagnosis/QC interfaces.

This file gives a shallow embedding, in Lean 4, of the two source files
`rabies/analysis_pkg/diagnosis_pkg/interfaces.py` and
`rabies/preprocess_bold_pkg/utils.py`, together with theorems settling the
behavioural claims about them.  Pure Python functions become Lean functions;
code that can raise Python exceptions returns `Except PyError`; numpy float
arrays are modelled as lists of rationals.  A handful of helper functions the
interfaces call live in modules that are not part of the two source files
(`rabies.utils`, `diagnosis_functions`, `analysis_QC`); those are modelled
from the specification and carry a doc comment saying so.
-/

namespace Rabies

/-- Python exception values raised by the modelled code.  `valueError`,
`attributeError` and `indexError` are the builtin Python exception classes;
`configurationError` is the specification's name for the failure raised when a
required external mask/atlas resource is missing (spec section 7). -/
inductive PyError where
  | valueError (msg : String)
  | attributeError (msg : String)
  | indexError (msg : String)
  | configurationError (msg : String)
deriving Repr, DecidableEq

/-- Arbitrarily nested Python lists over a payload type, the input shape
accepted by `rabies.utils.flatten_list`. -/
inductive Nested (α : Type) where
  | leaf (a : α)
  | node (l : List (Nested α))
deriving Repr

/-- Depth-first flattening of one nested list. -/
def flattenNested {α : Type} : Nested α → List α
  | .leaf a => [a]
  | .node l => flattenAux l
where
  /-- Flattening of a list of nested lists, in order. -/
  flattenAux {α : Type} : List (Nested α) → List α
    | [] => []
    | x :: xs => flattenNested x ++ flattenAux xs

/-- Modelled from the spec: `rabies.utils.flatten_list` (module absent from
src/).  It recursively flattens arbitrarily nested input lists into one flat
list, preserving order; both `PrepMasks._run_interface` and
`DatasetDiagnosis._run_interface` apply it to their list input. -/
def flatten_list {α : Type} (l : List (Nested α)) : List α :=
  flattenNested.flattenAux l

/-- In-memory stand-in for a NIfTI volume loaded with `nb.load`: only the
array shape matters to `split_volumes`. -/
structure NiftiFile where
  shape : List Nat
deriving Repr, DecidableEq

/-- Translation of `split_volumes` (utils.py lines 388-412).  The function
reads `in_nii.shape[3]` (line 398) before the `num_dimensions!=4` check
(line 400); indexing a Python tuple out of range raises IndexError.  When the
check fires it prints a message and returns None (line 402).  Otherwise it
writes one single-volume file per timepoint and returns the list of file
names together with the number of volumes (line 412). -/
def split_volumes (in_nii : NiftiFile) (pfx : String) :
    Except PyError (Option (List String × Nat)) :=
  let num_dimensions := in_nii.shape.length
  match in_nii.shape[3]? with
  | none => .error (.indexError "tuple index out of range")
  | some num_volumes =>
    if num_dimensions ≠ 4 then
      .ok none
    else
      let volumes := (List.range num_volumes).map
        (fun x => pfx ++ "vol" ++ toString x ++ ".nii.gz")
      .ok (some (volumes, num_volumes))

/-- C10: in `split_volumes`, the fourth-dimension length is read before the
dimensionality check, so an input with fewer than 4 dimensions fails with an
indexing error; the guarded `return None` branch is reachable exactly for
inputs with more than 4 dimensions; and an exactly-4-dimensional input yields
the per-timepoint volume list together with its count `shape[3]`. -/
theorem C10_split_volumes_shape_read_before_check
    (in_nii : NiftiFile) (pfx : String) :
    (in_nii.shape.length < 4 →
      split_volumes in_nii pfx = .error (.indexError "tuple index out of range"))
    ∧ (split_volumes in_nii pfx = .ok none ↔ 4 < in_nii.shape.length)
    ∧ (in_nii.shape.length = 4 →
      ∃ volumes, split_volumes in_nii pfx = .ok (some (volumes, in_nii.shape.getD 3 0))
        ∧ volumes.length = in_nii.shape.getD 3 0) := by
  refine ⟨?_, ?_, ?_⟩
  · intro h
    have hnone : in_nii.shape[3]? = none := by
      exact List.getElem?_eq_none (by omega)
    simp [split_volumes, hnone]
  · constructor
    · intro h
      by_cases h3 : 3 < in_nii.shape.length
      · rw [split_volumes, List.getElem?_eq_getElem h3] at h
        by_cases h4 : in_nii.shape.length ≠ 4
        · omega
        · simp [h4] at h
      · have hnone : in_nii.shape[3]? = none := List.getElem?_eq_none (by omega)
        rw [split_volumes, hnone] at h
        exact absurd h (by simp)
    · intro h
      have h3 : 3 < in_nii.shape.length := by omega
      rw [split_volumes, List.getElem?_eq_getElem h3]
      have h4 : in_nii.shape.length ≠ 4 := by omega
      simp [h4]
  · intro h
    have h3 : 3 < in_nii.shape.length := by omega
    have hgd : in_nii.shape.getD 3 0 = in_nii.shape[3] := by
      simp [List.getD, List.getElem?_eq_getElem h3]
    refine ⟨(List.range in_nii.shape[3]).map
      (fun x => pfx ++ "vol" ++ toString x ++ ".nii.gz"), ?_, ?_⟩
    · rw [split_volumes, List.getElem?_eq_getElem h3]
      simp [h, hgd]
    · simp [hgd, List.getElem?_eq_getElem h3]

/-- Closed instance of C10: a 3-dimensional input fails with an IndexError. -/
theorem C10_split_volumes_shape_read_before_check_witness :
    split_volumes ⟨[2, 2, 2]⟩ "bold_" = .error (.indexError "tuple index out of range") :=
  (C10_split_volumes_shape_read_before_check ⟨[2, 2, 2]⟩ "bold_").1 (by decide)

/-- One scan's mask dictionary, the element type of the `mask_dict_list` input
of `PrepMasks` (interfaces.py lines 36-40 read these four keys). -/
structure MaskDict where
  mask_file : String
  WM_mask_file : String
  CSF_mask_file : String
  preprocess_anat_template : String
deriving Repr, DecidableEq

/-- Inputs of `PrepMasks` (interfaces.py lines 12-18). -/
structure PrepMasksInput where
  mask_dict_list : List (Nested MaskDict)
  prior_maps : String
  DSURQE_regions : Bool

/-- Process environment read at interfaces.py lines 49-52: optional
XDG_DATA_HOME and HOME. -/
structure Env where
  xdg_data_home : Option String
  home : String
deriving Repr, DecidableEq

/-- The output `mask_file_dict` assembled at interfaces.py lines 66-67. -/
structure MaskFileDict where
  template_file : String
  brain_mask : String
  WM_mask : String
  CSF_mask : String
  edge_mask : String
  right_hem_mask : String
  left_hem_mask : String
  prior_maps : String
deriving Repr, DecidableEq

/-- Resolution of the rabies data path (interfaces.py lines 49-52): the
XDG_DATA_HOME entry plus `/rabies` when set, otherwise
HOME plus `/.local/share/rabies`. -/
def rabiesPath (env : Env) : String :=
  match env.xdg_data_home with
  | some p => p ++ "/rabies"
  | none => env.home ++ "/.local/share/rabies"

/-- Path of the right-hemisphere atlas mask requested at interfaces.py
line 53. -/
def rightHemPath (env : Env) : String :=
  rabiesPath env ++ "/DSURQE_40micron_right_hem_mask.nii.gz"

/-- Path of the left-hemisphere atlas mask requested at interfaces.py
line 55. -/
def leftHemPath (env : Env) : String :=
  rabiesPath env ++ "/DSURQE_40micron_left_hem_mask.nii.gz"

/-- Modelled from the spec: `diagnosis_functions.resample_mask` (module absent
from src/).  Per spec section 4.1 it resamples a categorical atlas mask onto
the brain-mask grid with label-preserving interpolation, and fails with a
`ConfigurationError` when the required mask file is missing from the resolved
atlas path.  `fs` is the set of files present on disk; the produced file is
modelled by a token recording the source mask and the reference grid. -/
def resample_mask (fs : List String) (mask_path ref_path : String) :
    Except PyError String :=
  if mask_path ∈ fs then
    .ok ("resampled-" ++ mask_path ++ "-onto-" ++ ref_path)
  else
    .error (.configurationError ("missing required mask file: " ++ mask_path))

/-- Modelled from the spec: `rabies.analysis_pkg.analysis_functions.resample_IC_file`
(module absent from src/).  Per spec section 4.1 it resamples the prior
network maps onto the brain-mask grid preserving map order; the produced file
is modelled by a token recording source and reference. -/
def resample_IC_file (p ref : String) : String :=
  "resampledIC-" ++ p ++ "-onto-" ++ ref

/-- Translation of `PrepMasks._run_interface` (interfaces.py lines 34-70).
The flattened mask-dict list is only read at its first element (line 37);
an empty flattened list makes `merged[0]` raise IndexError.  The anatomical
template is resampled and written to the fixed name `display_template.nii.gz`
(lines 43-46) and the edge mask to `edge_mask.nii.gz` (lines 64-65); the
numeric content of those two files is produced by helpers outside src/
(`resample_image_spacing`, `compute_edge_mask`) and no claim depends on it,
so only the paths stored in the dictionary are modelled.  Hemisphere masks
are resampled only when `DSURQE_regions` is set (lines 48-59). -/
def prepMasksRun (fs : List String) (env : Env) (inp : PrepMasksInput) :
    Except PyError MaskFileDict :=
  match (flatten_list inp.mask_dict_list).head? with
  | none => .error (.indexError "list index out of range")
  | some mask_dict =>
    let hem : Except PyError (String × String) :=
      if inp.DSURQE_regions then
        match resample_mask fs (rightHemPath env) mask_dict.mask_file with
        | .error e => .error e
        | .ok right_hem_mask_file =>
          match resample_mask fs (leftHemPath env) mask_dict.mask_file with
          | .error e => .error e
          | .ok left_hem_mask_file => .ok (right_hem_mask_file, left_hem_mask_file)
      else .ok ("", "")
    match hem with
    | .error e => .error e
    | .ok pair =>
      .ok { template_file := "display_template.nii.gz",
            brain_mask := mask_dict.mask_file,
            WM_mask := mask_dict.WM_mask_file,
            CSF_mask := mask_dict.CSF_mask_file,
            edge_mask := "edge_mask.nii.gz",
            right_hem_mask := pair.1,
            left_hem_mask := pair.2,
            prior_maps := resample_IC_file inp.prior_maps mask_dict.mask_file }

/-- Classifier: does a `PrepMasks` outcome carry a ConfigurationError? -/
def isConfigError : Except PyError MaskFileDict → Bool
  | .error (.configurationError _) => true
  | _ => false

/-- C5: when `PrepMasks` requests the hemisphere atlas masks
(`DSURQE_regions` set) and a required mask file is missing from the resolved
atlas path, the run fails with a ConfigurationError; when hemisphere masks
are not requested, no ConfigurationError can arise whatever the filesystem
contains — the absence of the feature is not an error. -/
theorem C5_prepmasks_missing_atlas_configuration_error
    (fs : List String) (env : Env) (inp : PrepMasksInput) :
    (inp.DSURQE_regions = true →
      ((flatten_list inp.mask_dict_list).head?).isSome = true →
      ¬(rightHemPath env ∈ fs ∧ leftHemPath env ∈ fs) →
      isConfigError (prepMasksRun fs env inp) = true)
    ∧ (inp.DSURQE_regions = false →
      isConfigError (prepMasksRun fs env inp) = false) := by
  constructor
  · intro hd hsome hmiss
    obtain ⟨md, hmd⟩ := Option.isSome_iff_exists.mp hsome
    by_cases hr : rightHemPath env ∈ fs
    · have hl : ¬ leftHemPath env ∈ fs := fun hl => hmiss ⟨hr, hl⟩
      simp [prepMasksRun, hmd, hd, resample_mask, hr, hl, isConfigError]
    · simp [prepMasksRun, hmd, hd, resample_mask, hr, isConfigError]
  · intro hd
    cases hmd : (flatten_list inp.mask_dict_list).head? with
    | none => simp [prepMasksRun, hmd, isConfigError]
    | some md => simp [prepMasksRun, hmd, hd, isConfigError]

/-- C7: in every successful `PrepMasks` build, the left/right hemisphere
fields of the output dictionary hold the atlas masks resampled onto the
brain-mask grid exactly when `DSURQE_regions` was requested, and are the
empty string otherwise. -/
theorem C7_prepmasks_hemisphere_iff_requested
    (fs : List String) (env : Env) (inp : PrepMasksInput) (out : MaskFileDict)
    (hok : prepMasksRun fs env inp = .ok out) :
    (inp.DSURQE_regions = true →
      out.right_hem_mask = "resampled-" ++ rightHemPath env ++ "-onto-" ++ out.brain_mask
      ∧ out.left_hem_mask = "resampled-" ++ leftHemPath env ++ "-onto-" ++ out.brain_mask)
    ∧ (inp.DSURQE_regions = false →
      out.right_hem_mask = "" ∧ out.left_hem_mask = "") := by
  cases hmd : (flatten_list inp.mask_dict_list).head? with
  | none => rw [prepMasksRun, hmd] at hok; exact absurd hok (by simp)
  | some md =>
    cases hd : inp.DSURQE_regions with
    | true =>
      by_cases hr : rightHemPath env ∈ fs
      · by_cases hl : leftHemPath env ∈ fs
        · rw [prepMasksRun, hmd] at hok
          simp [hd, resample_mask, hr, hl] at hok
          subst hok
          exact ⟨fun _ => ⟨rfl, rfl⟩, fun hf => Bool.noConfusion hf⟩
        · rw [prepMasksRun, hmd] at hok
          simp [hd, resample_mask, hr, hl] at hok
      · rw [prepMasksRun, hmd] at hok
        simp [hd, resample_mask, hr] at hok
    | false =>
      rw [prepMasksRun, hmd] at hok
      simp [hd, resample_mask] at hok
      subst hok
      exact ⟨fun ht => Bool.noConfusion ht, fun _ => ⟨rfl, rfl⟩⟩

/-- C8: `PrepMasks` depends on its list input only through the first element
of the flattened mask-dict list: two inputs whose flattened lists share the
same head (all other inputs equal) produce identical outcomes, whatever the
remaining per-scan dictionaries are. -/
theorem C8_prepmasks_first_element_only
    (fs : List String) (env : Env) (l1 l2 : List (Nested MaskDict))
    (p : String) (d : Bool)
    (h : (flatten_list l1).head? = (flatten_list l2).head?) :
    prepMasksRun fs env ⟨l1, p, d⟩ = prepMasksRun fs env ⟨l2, p, d⟩ := by
  rw [prepMasksRun, prepMasksRun]
  rw [show (flatten_list (PrepMasksInput.mk l1 p d).mask_dict_list).head?
        = (flatten_list (PrepMasksInput.mk l2 p d).mask_dict_list).head? from h]

/-- Sample mask dictionary for the witnesses. -/
def mdSample : MaskDict :=
  { mask_file := "brain.nii.gz", WM_mask_file := "wm.nii.gz",
    CSF_mask_file := "csf.nii.gz", preprocess_anat_template := "anat.nii.gz" }

/-- Sample environment for the witnesses: no XDG_DATA_HOME. -/
def envSample : Env := { xdg_data_home := none, home := "/home/user" }

/-- PrepMasks input requesting hemisphere masks. -/
def prepInpT : PrepMasksInput :=
  { mask_dict_list := [.leaf mdSample], prior_maps := "melodic.nii.gz",
    DSURQE_regions := true }

/-- PrepMasks input not requesting hemisphere masks. -/
def prepInpF : PrepMasksInput :=
  { mask_dict_list := [.leaf mdSample], prior_maps := "melodic.nii.gz",
    DSURQE_regions := false }

/-- Closed instance of C5: with an empty filesystem the requesting run fails
with a ConfigurationError, and the non-requesting run does not. -/
theorem C5_prepmasks_missing_atlas_configuration_error_witness :
    isConfigError (prepMasksRun [] envSample prepInpT) = true
    ∧ isConfigError (prepMasksRun [] envSample prepInpF) = false :=
  ⟨(C5_prepmasks_missing_atlas_configuration_error [] envSample prepInpT).1
      (by decide) (by decide) (by decide),
   (C5_prepmasks_missing_atlas_configuration_error [] envSample prepInpF).2
      (by decide)⟩

/-- Filesystem containing both hemisphere masks for the sample environment. -/
def fsSample : List String := [rightHemPath envSample, leftHemPath envSample]

/-- The mask dictionary produced by the sample requesting run. -/
def maskOutSample : MaskFileDict :=
  { template_file := "display_template.nii.gz",
    brain_mask := "brain.nii.gz",
    WM_mask := "wm.nii.gz",
    CSF_mask := "csf.nii.gz",
    edge_mask := "edge_mask.nii.gz",
    right_hem_mask := "resampled-" ++ rightHemPath envSample ++ "-onto-" ++ "brain.nii.gz",
    left_hem_mask := "resampled-" ++ leftHemPath envSample ++ "-onto-" ++ "brain.nii.gz",
    prior_maps := "resampledIC-" ++ "melodic.nii.gz" ++ "-onto-" ++ "brain.nii.gz" }

/-- Closed instance of C7: with both atlas files present, the requesting run
succeeds and its hemisphere fields hold the resampled masks. -/
theorem C7_prepmasks_hemisphere_iff_requested_witness :
    maskOutSample.right_hem_mask
      = "resampled-" ++ rightHemPath envSample ++ "-onto-" ++ maskOutSample.brain_mask
    ∧ maskOutSample.left_hem_mask
      = "resampled-" ++ leftHemPath envSample ++ "-onto-" ++ maskOutSample.brain_mask :=
  (C7_prepmasks_hemisphere_iff_requested fsSample envSample prepInpT maskOutSample
    (by rfl)).1 rfl

/-- Closed instance of C8: appending further (different) mask dictionaries
does not change the outcome. -/
theorem C8_prepmasks_first_element_only_witness :
    prepMasksRun [] envSample ⟨[.leaf mdSample], "melodic.nii.gz", false⟩
      = prepMasksRun [] envSample
          ⟨[.node [.leaf mdSample, .leaf { mdSample with mask_file := "other.nii.gz" }]],
            "melodic.nii.gz", false⟩ :=
  C8_prepmasks_first_element_only [] envSample _ _ "melodic.nii.gz" false (by decide)

/-- Python scalar values that can populate the `prior_bold_idx` /
`prior_confound_idx` trait lists: integers, floats and strings. -/
inductive PyVal where
  | int (n : Int)
  | float (q : ℚ)
  | str (s : String)
deriving Repr, DecidableEq

/-- Truncation toward zero: the behaviour of Python `int()` on a float. -/
def truncRat (q : ℚ) : Int := if 0 ≤ q then ⌊q⌋ else -⌊-q⌋

/-- Whitespace characters Python `int()` strips around a numeric literal. -/
def isPySpace (c : Char) : Bool :=
  c = ' ' || c = '\t' || c = '\n' || c = '\r'

/-- Strip of whitespace at both ends of a character list. -/
def trimChars (cs : List Char) : List Char :=
  ((cs.dropWhile isPySpace).reverse.dropWhile isPySpace).reverse

/-- Sign handling of a numeric literal: a leading minus negates, a leading
plus or minus is removed from the digit core. -/
def signSplit (t : List Char) : Bool × List Char :=
  match t with
  | '-' :: rest => (true, rest)
  | '+' :: rest => (false, rest)
  | _ => (false, t)

/-- Python `int()` applied to a string: optional surrounding whitespace, an
optional sign, then a nonempty run of decimal digits; any other string raises
`ValueError: invalid literal for int() with base 10`. -/
def pyIntOfString (s : String) : Except PyError Int :=
  let t := trimChars s.data
  let core := (signSplit t).2
  if core.length != 0 && core.all Char.isDigit then
    let n : Int := core.foldl (fun a c => a * 10 + Int.ofNat (c.toNat - 48)) 0
    .ok (if (signSplit t).1 then -n else n)
  else
    .error (.valueError ("invalid literal for int with base 10: " ++ s))

/-- Python `int()` on a scalar: identity on ints, truncation on floats,
string parsing on strings. -/
def pyInt : PyVal → Except PyError Int
  | .int n => .ok n
  | .float q => .ok (truncRat q)
  | .str s => pyIntOfString s

/-- Whether `int()` succeeds on the value; a malformed index is one where it
does not. -/
def pyIntOk (x : PyVal) : Bool :=
  match pyInt x with
  | .ok _ => true
  | .error _ => false

/-- Elementwise `int()` coercion of a list, as the comprehension
`[int(i) for i in ...]` at interfaces.py lines 127-128: elements are
converted left to right and the first failure raises. -/
def pyIntList : List PyVal → Except PyError (List Int)
  | [] => .ok []
  | x :: xs =>
    match pyInt x with
    | .error e => .error e
    | .ok n =>
      match pyIntList xs with
      | .error e => .error e
      | .ok ns => .ok (n :: ns)

/-- Basename of a path followed by `rsplit(".nii")[0]`, the filename-template
computation at interfaces.py line 137. -/
def stripNiiSuffix (s : String) : String :=
  let base := (s.splitOn "/").getLastD s
  (base.splitOn ".nii").headD base

/-- The `file_dict` input of `ScanDiagnosis`, holding the keys read at
interfaces.py lines 120-126. -/
structure FileDict where
  bold_file : String
  CR_data_dict : String
  VE_file : String
  STD_file : String
  CR_STD_file : String
  random_CR_STD_file : String
  corrected_CR_STD_file : String
deriving Repr, DecidableEq

/-- Inputs of `ScanDiagnosis` (interfaces.py lines 76-90). -/
structure ScanDiagInput where
  file_dict : FileDict
  prior_bold_idx : List PyVal
  prior_confound_idx : List PyVal
  NPR_extra_sources : Int
  DSURQE_regions : Bool

/-- Outputs of a `ScanDiagnosis` run: the two figure paths (lines 139-145)
and the integer index lists that reached the feature extraction. -/
structure ScanDiagResult where
  figure_temporal_diagnosis : String
  figure_spatial_diagnosis : String
  used_bold_idx : List Int
  used_confound_idx : List Int
deriving Repr, DecidableEq

/-- Modelled from the spec: `diagnosis_functions.process_data` and
`diagnosis_functions.scan_diagnosis` (module absent from src/).  Per spec
section 4.2 the feature extraction consumes the integer-coerced index lists;
only which integer lists reach it matters to the claims here, so the model
passes them through. -/
def process_data (prior_bold_idx prior_confound_idx : List Int) :
    List Int × List Int :=
  (prior_bold_idx, prior_confound_idx)

/-- Translation of `ScanDiagnosis._run_interface` (interfaces.py lines
118-149): the two index trait lists are coerced elementwise with `int()`
(lines 127-128) before `process_data` runs, and the figure paths are derived
from the bold file name (lines 136-140). -/
def scanDiagnosisRun (inp : ScanDiagInput) : Except PyError ScanDiagResult :=
  match pyIntList inp.prior_bold_idx with
  | .error e => .error e
  | .ok prior_bold_idx =>
    match pyIntList inp.prior_confound_idx with
    | .error e => .error e
    | .ok prior_confound_idx =>
      let info := process_data prior_bold_idx prior_confound_idx
      let filename_template := stripNiiSuffix inp.file_dict.bold_file
      .ok { figure_temporal_diagnosis := filename_template ++ "_temporal_diagnosis.png",
            figure_spatial_diagnosis := filename_template ++ "_spatial_diagnosis.png",
            used_bold_idx := info.1,
            used_confound_idx := info.2 }

/-- Classifier: does a `ScanDiagnosis` outcome carry a ValueError? -/
def isValueErrorSD : Except PyError ScanDiagResult → Bool
  | .error (.valueError _) => true
  | _ => false

/-- Unfolding lemma for the cons case of `pyIntList`. -/
theorem pyIntList_cons (x : PyVal) (xs : List PyVal) :
    pyIntList (x :: xs) =
      match pyInt x with
      | .error e => .error e
      | .ok n =>
        match pyIntList xs with
        | .error e => .error e
        | .ok ns => .ok (n :: ns) := rfl

/-- The error raised by `pyInt` is always a ValueError, as Python `int()`
raises on a malformed literal. -/
theorem pyInt_error_is_valueError (x : PyVal) (e : PyError)
    (h : pyInt x = .error e) : ∃ m, e = .valueError m := by
  cases x with
  | int n => exact Except.noConfusion h
  | float q => exact Except.noConfusion h
  | str s =>
    have h' : pyIntOfString s = .error e := h
    rw [pyIntOfString] at h'
    simp only at h'
    split at h'
    · exact Except.noConfusion h'
    · simp only [Except.error.injEq] at h'
      exact ⟨_, h'.symm⟩

/-- A list containing a value `int()` rejects makes the elementwise coercion
fail with a ValueError. -/
theorem pyIntList_error_of_bad (l : List PyVal) (x : PyVal)
    (hx : x ∈ l) (hbad : pyIntOk x = false) :
    ∃ m, pyIntList l = .error (.valueError m) := by
  induction l with
  | nil => cases hx
  | cons a t ih =>
    cases he : pyInt a with
    | error e =>
      obtain ⟨m, hm⟩ := pyInt_error_is_valueError a e he
      exact ⟨m, by simp only [pyIntList_cons, he, hm]⟩
    | ok n =>
      rcases List.mem_cons.mp hx with rfl | hxt
      · rw [pyIntOk, he] at hbad
        exact absurd hbad (by simp)
      · obtain ⟨m, hm⟩ := ih hxt
        exact ⟨m, by simp only [pyIntList_cons, he, hm]⟩

/-- If the elementwise coercion fails, some element of the list is the one
`int()` rejected with that error. -/
theorem pyIntList_error_mem (l : List PyVal) (e : PyError)
    (h : pyIntList l = .error e) : ∃ x ∈ l, pyInt x = .error e := by
  induction l with
  | nil => exact Except.noConfusion h
  | cons a t ih =>
    cases he : pyInt a with
    | error e' =>
      simp only [pyIntList_cons, he] at h
      simp only [Except.error.injEq] at h
      exact ⟨a, List.mem_cons_self a t, by rw [he, h]⟩
    | ok n =>
      cases ht : pyIntList t with
      | error e' =>
        simp only [pyIntList_cons, he, ht] at h
        simp only [Except.error.injEq] at h
        obtain ⟨y, hy, hye⟩ := ih (by rw [ht, h])
        exact ⟨y, List.mem_cons_of_mem a hy, hye⟩
      | ok ns =>
        simp only [pyIntList_cons, he, ht] at h
        exact Except.noConfusion h

/-- C6: `ScanDiagnosis` coerces every element of `prior_bold_idx` and
`prior_confound_idx` to an integer before use — a successful run hands the
feature extraction exactly the `int()`-images of the two lists — and any
input list containing a malformed (non-integer-coercible) index makes the
run fail with a ValueError. -/
theorem C6_scan_diagnosis_integer_coercion (inp : ScanDiagInput) :
    (∀ r, scanDiagnosisRun inp = .ok r →
      pyIntList inp.prior_bold_idx = .ok r.used_bold_idx
      ∧ pyIntList inp.prior_confound_idx = .ok r.used_confound_idx)
    ∧ (∀ x, (x ∈ inp.prior_bold_idx ∨ x ∈ inp.prior_confound_idx) →
      pyIntOk x = false →
      isValueErrorSD (scanDiagnosisRun inp) = true) := by
  constructor
  · intro r hr
    cases hb : pyIntList inp.prior_bold_idx with
    | error e => rw [scanDiagnosisRun, hb] at hr; exact absurd hr (by simp)
    | ok bs =>
      cases hc : pyIntList inp.prior_confound_idx with
      | error e => rw [scanDiagnosisRun, hb, hc] at hr; exact absurd hr (by simp)
      | ok cs =>
        rw [scanDiagnosisRun, hb, hc] at hr
        simp only [Except.ok.injEq] at hr
        rw [← hr]
        exact ⟨rfl, rfl⟩
  · intro x hx hbad
    cases hx with
    | inl hxb =>
      obtain ⟨m, hm⟩ := pyIntList_error_of_bad _ x hxb hbad
      rw [scanDiagnosisRun, hm]
      rfl
    | inr hxc =>
      obtain ⟨m, hm⟩ := pyIntList_error_of_bad _ x hxc hbad
      cases hb : pyIntList inp.prior_bold_idx with
      | error e =>
        rw [scanDiagnosisRun, hb]
        obtain ⟨y, _, hye⟩ := pyIntList_error_mem _ e hb
        obtain ⟨m', hm'⟩ := pyInt_error_is_valueError y e hye
        rw [hm']
        rfl
      | ok bs =>
        rw [scanDiagnosisRun, hb, hm]
        rfl

/-- Sample `ScanDiagnosis` input whose bold index list holds a malformed
index. -/
def scanInpBad : ScanDiagInput :=
  ⟨⟨"sub-1_ses-1_run-1_bold.nii.gz", "cr", "ve", "std", "crstd", "rcrstd", "ccrstd"⟩,
    [.str "abc", .int 5], [.int 0], 0, false⟩

/-- Closed instance of C6: the malformed literal "abc" makes the run fail
with a ValueError. -/
theorem C6_scan_diagnosis_integer_coercion_witness :
    isValueErrorSD (scanDiagnosisRun scanInpBad) = true :=
  (C6_scan_diagnosis_integer_coercion scanInpBad).2 (.str "abc")
    (Or.inl (by simp [scanInpBad])) (by decide)

/-- One scan's feature record, holding the keys `DatasetDiagnosis` reads at
interfaces.py lines 209-217 and 240.  Spatial maps are stored restricted to
brain-mask voxels in a fixed flattened order (spec section 3), so voxel
vectors are lists of rationals and map stacks are lists of such vectors. -/
structure ScanData where
  temporal_std : List ℚ
  predicted_std : List ℚ
  corrected_CR_std : List ℚ
  random_CR_std : List ℚ
  DR_BOLD : List (List ℚ)
  NPR_maps : List (List ℚ)
  tDOF : ℚ
  seed_list : List (List ℚ)
  prior_maps : List (List ℚ)
deriving Repr, DecidableEq

/-- Inputs of `DatasetDiagnosis` (interfaces.py lines 158-164).  The seed
prior maps are modelled already resampled to the brain-mask voxel space (the
resampling at lines 263-265 is done by SimpleITK, outside src/). -/
structure DDInput where
  scan_data_list : List (Nested ScanData)
  seed_prior_maps : List (List ℚ)

/-- Outcome of a `DatasetDiagnosis` run: the paths of artifacts written
before the run ended, and the uncaught exception if one was raised. -/
structure DDResult where
  files : List String
  err : Option PyError
deriving Repr, DecidableEq

/-- Boolean indexing `v[mask]` of a flattened voxel vector. -/
def applyMask (mask : List Bool) (v : List ℚ) : List ℚ :=
  ((v.zip mask).filter (fun p => p.2)).map (fun p => p.1)

/-- Sum of a list of rationals. -/
def listSum (l : List ℚ) : ℚ := l.foldr (· + ·) 0

/-- Arithmetic mean of a list of rationals. -/
def listMean (l : List ℚ) : ℚ := listSum l / (l.length : ℚ)

/-- Population covariance of two equally long sample vectors. -/
def covar (a b : List ℚ) : ℚ :=
  listMean (List.zipWith (· * ·) a b) - listMean a * listMean b

/-- Squared Pearson correlation, kept rational by squaring; a zero-variance
side yields 0 (the undefined case the spec excludes). -/
def corrSq (a b : List ℚ) : ℚ :=
  let den := covar a a * covar b b
  if den = 0 then 0 else covar a b * covar a b / den

/-- Column `v` of a scans-by-voxels stack. -/
def colVec (m : List (List ℚ)) (v : Nat) : List ℚ :=
  m.map (fun row => row.getD v 0)

/-- Column of a covariate stack: a one-column covariate (the tDOF column,
shaped scans-by-1) broadcasts its single column to every voxel. -/
def covCol (x : List (List ℚ)) (v : Nat) : List ℚ :=
  x.map (fun row => if row.length = 1 then row.getD 0 0 else row.getD v 0)

/-- Statistics returned by one `analysis_QC` call. -/
structure QCStats where
  variable_name : List String
  prior_corr_sq : ℚ
  covariate_corr_sq : List ℚ
deriving Repr, DecidableEq

/-- Modelled from the spec: `analysis_QC` (module
`rabies.analysis_pkg.diagnosis_pkg.analysis_QC`, absent from src/).  Per spec
sections 3 and 4.3 it computes, across scans, the per-voxel Pearson
correlation between the network maps and each covariate, and the spatial
correlation between the cross-scan-average map and the expected prior; it
writes the figure to the given path and returns the statistics row.  The
model records the squared correlations (rational) — the per-covariate entry
being the mean over voxels — together with the covariate names. -/
def analysis_QC (FC_maps : List (List ℚ)) (prior_map : List ℚ)
    (corr_variable : List (List (List ℚ))) (variable_name : List String) :
    QCStats :=
  let V := (FC_maps.head?.getD []).length
  { variable_name := variable_name,
    prior_corr_sq := corrSq ((List.range V).map (fun v => listMean (colVec FC_maps v))) prior_map,
    covariate_corr_sq := corr_variable.map (fun x =>
      listMean ((List.range V).map (fun v => corrSq (colVec FC_maps v) (covCol x v)))) }

/-- Sum of squared deviations from the mean.  `np.array(l).std()` is zero
exactly when this vanishes (the standard deviation is the square root of this
sum divided by the length), which keeps the zero test rational. -/
def sumSqDev (l : List ℚ) : ℚ :=
  listSum (l.map (fun x => (x - listMean l) * (x - listMean l)))

/-- Translation of the test `np.array(tdof_list).std()==0` at interfaces.py
line 235.  On an empty array numpy yields nan and `nan==0` is False; on a
nonempty one the standard deviation is zero iff `sumSqDev` is. -/
def npStdIsZero (l : List ℚ) : Bool :=
  match l with
  | [] => false
  | _ :: _ => decide (sumSqDev l = 0)

/-- Translation of interfaces.py lines 234-237 for the covariate stacks: the
tDOF column `np.array(tdof_list).reshape(-1,1)` is appended to the variable
set only when `np.array(tdof_list).std()` is nonzero. -/
def corrVariableStack (base : List (List (List ℚ))) (tdof_list : List ℚ) :
    List (List (List ℚ)) :=
  if npStdIsZero tdof_list then base else base ++ [tdof_list.map (fun x => [x])]

/-- Translation of interfaces.py lines 234-238 for the covariate names. -/
def corrVariableNames (base : List String) (tdof_list : List ℚ) : List String :=
  if npStdIsZero tdof_list then base else base ++ ["tDOF"]

/-- Covariate names of the uncorrected variable set (interfaces.py
line 231). -/
def varSetNamesA : List String :=
  ["$\\mathregular\x7bBOLD_\x7bSD\x7d\x7d$", "$\\mathregular\x7bCR_\x7bSD\x7d\x7d$"]

/-- Covariate names of the bias-corrected variable set (interfaces.py
line 231). -/
def varSetNamesB : List String :=
  ["$\\mathregular\x7bBOLD_\x7bSD\x7d\x7d$",
   "Corrected $\\mathregular\x7bCR_\x7bSD\x7d\x7d$",
   "Random $\\mathregular\x7bCR_\x7bSD\x7d\x7d$"]

/-- Content of one persisted `DatasetDiagnosis` artifact. -/
inductive ArtifactData where
  | maskImage (vox : List Bool)
  | figure (stats : QCStats)
  | statsTable (stats : QCStats)
deriving Repr, DecidableEq

/-- One persisted `DatasetDiagnosis` artifact: its path and content. -/
structure Artifact where
  path : String
  data : ArtifactData
deriving Repr, DecidableEq

/-- Python semantics of the comparison `std_maps == 0` at interfaces.py line
220, where `std_maps` is still the plain Python list built by the loop at
lines 201-210 (`np.array` is applied to it only at line 224): `list` defines
no equality against `int` and `int.__eq__` answers NotImplemented against a
`list`, so `==` falls back to identity and the expression is the Python bool
False — not an elementwise array comparison. -/
def pyListEqScalar (std_maps : List (List ℚ)) (y : Int) : Bool := false

/-- Python attribute lookup for the `.sum(axis=0)` call that line 220 chains
onto the comparison: `bool` carries no attribute `sum`, so the lookup raises
AttributeError. -/
def pyBoolSumAttr (b : Bool) : Except PyError (List ℚ) :=
  .error (.attributeError "bool object has no attribute sum")

/-- Translation of interfaces.py line 220,
`non_zero_voxels = ((std_maps==0).sum(axis=0).astype(bool)==0)`: the
per-voxel count of zero-std scans would be mapped through
`.astype(bool)==0` to the intersection mask, but the attribute lookup on the
bool comparison raises first. -/
def nonZeroVoxelsLine220 (std_maps : List (List ℚ)) : Except PyError (List Bool) :=
  match pyBoolSumAttr (pyListEqScalar std_maps 0) with
  | .error e => .error e
  | .ok counts => .ok (counts.map (fun c => decide (c = 0)))

/-- Translation of interfaces.py lines 221-277: the aggregation statistics
performed once a `non_zero_voxels` mask is available.  The non-zero-mask
volume is written (lines 221-222); the stacked spatial features are restricted
to the mask (lines 224-227; restricting each scan's row equals slicing the
stacked array); for each of the two covariate variable sets (lines 229-238)
one figure and one statistics row are produced per prior network for DR maps
(lines 243-248), for NPR maps when the stack is nonempty (lines 250-256), and
for seed maps when seed priors are supplied (lines 259-274).  The prior maps
enter at line 240 through `scan_data`, the loop variable left over from the
loop at lines 209-217, hence from the last scan record.  Rectangular arrays
are assumed, as the numpy slicing requires; a run with fewer than 3 scans
never reaches this code, so the defaults taken on an empty list are inert. -/
def ddBody (merged : List ScanData) (non_zero_voxels : List Bool)
    (seed_prior_maps : List (List ℚ)) : List Artifact :=
  let std_maps := merged.map (fun sd => applyMask non_zero_voxels sd.temporal_std)
  let CR_std_maps := merged.map (fun sd => applyMask non_zero_voxels sd.predicted_std)
  let corrected_CR_std_maps :=
    merged.map (fun sd => applyMask non_zero_voxels sd.corrected_CR_std)
  let random_CR_std_maps :=
    merged.map (fun sd => applyMask non_zero_voxels sd.random_CR_std)
  let DR_stack := merged.map (fun sd => sd.DR_BOLD.map (applyMask non_zero_voxels))
  let NPR_stack := merged.map (fun sd => sd.NPR_maps.map (applyMask non_zero_voxels))
  let seed_stack := merged.map (fun sd => sd.seed_list.map (applyMask non_zero_voxels))
  let tdof_list := merged.map (fun sd => sd.tDOF)
  let last_prior := (merged.getLast?.map (fun sd => sd.prior_maps)).getD []
  let npr_count := ((merged.map (fun sd => sd.NPR_maps.length)).head?).getD 0
  let perDir := fun (baseStack : List (List (List ℚ))) (baseNames : List String)
      (out_dir : String) =>
    let corr_variable := corrVariableStack baseStack tdof_list
    let variable_name := corrVariableNames baseNames tdof_list
    let prior_maps := last_prior.map (applyMask non_zero_voxels)
    let num_priors := prior_maps.length
    let drArts := (List.range num_priors).flatMap (fun i =>
      let FC_maps := DR_stack.map (fun rows => rows.getD i [])
      let stats := analysis_QC FC_maps (prior_maps.getD i []) corr_variable variable_name
      [Artifact.mk (out_dir ++ "/DR" ++ toString i ++ "_QC_maps.png") (.figure stats),
       Artifact.mk (out_dir ++ "/DR" ++ toString i ++ "_QC_stats.csv") (.statsTable stats)])
    let nprArts :=
      if 0 < npr_count then
        (List.range num_priors).flatMap (fun i =>
          let FC_maps := NPR_stack.map (fun rows => rows.getD i [])
          let stats := analysis_QC FC_maps (prior_maps.getD i []) corr_variable variable_name
          [Artifact.mk (out_dir ++ "/NPR" ++ toString i ++ "_QC_maps.png") (.figure stats),
           Artifact.mk (out_dir ++ "/NPR" ++ toString i ++ "_QC_stats.csv") (.statsTable stats)])
      else []
    let seedArts :=
      if 0 < seed_prior_maps.length then
        let seed_priors := seed_prior_maps.map (applyMask non_zero_voxels)
        (List.range seed_priors.length).flatMap (fun i =>
          let FC_maps := seed_stack.map (fun rows => rows.getD i [])
          let stats := analysis_QC FC_maps (seed_priors.getD i []) corr_variable variable_name
          [Artifact.mk (out_dir ++ "/seed_FC" ++ toString i ++ "_QC_maps.png") (.figure stats),
           Artifact.mk (out_dir ++ "/seed_FC" ++ toString i ++ "_QC_stats.csv") (.statsTable stats)])
      else []
    drArts ++ nprArts ++ seedArts
  Artifact.mk "non_zero_mask.nii.gz" (.maskImage non_zero_voxels)
    :: (perDir [std_maps, CR_std_maps] varSetNamesA "analysis_QC"
        ++ perDir [std_maps, corrected_CR_std_maps, random_CR_std_maps] varSetNamesB
            "analysis_QC/analysis_QC_corrected_CR")

/-- The exception raised at interfaces.py line 220. -/
def line220err : PyError := .attributeError "bool object has no attribute sum"

/-- The message of the exception raised at interfaces.py lines 188-189. -/
def insufficientSampleMsg : String :=
  "Cannot run statistics on a sample size smaller than 3, so an empty figure is generated."

/-- Translation of `DatasetDiagnosis._run_interface` (interfaces.py lines
182-278).  The flattened scan list is gated at 3 records (lines 186-189,
raising a plain ValueError); past the gate the per-scan feature lists are
built (lines 196-217) and line 220 computes the non-zero-voxel mask, where
the error modelled by `pyListEqScalar` and `pyBoolSumAttr` fires before any
file is written.  `files` lists the artifact paths written before the run
ended; an uncaught exception lands in `err`. -/
def ddRun (inp : DDInput) : DDResult :=
  let merged := flatten_list inp.scan_data_list
  if merged.length < 3 then
    { files := [], err := some (.valueError insufficientSampleMsg) }
  else
    let std_maps := merged.map (fun sd => sd.temporal_std)
    match nonZeroVoxelsLine220 std_maps with
    | .error e => { files := [], err := some e }
    | .ok non_zero_voxels =>
      { files := (ddBody merged non_zero_voxels inp.seed_prior_maps).map (fun a => a.path),
        err := none }

/-- Any run past the sample-size gate raises the line-220 AttributeError. -/
theorem ddRun_ge3 (inp : DDInput)
    (h : 3 ≤ (flatten_list inp.scan_data_list).length) :
    ddRun inp = { files := [], err := some line220err } := by
  simp only [ddRun]
  rw [if_neg (by omega)]
  rfl

/-- C1 (code bug): past the 3-scan gate the aggregation always raises
AttributeError at the `non_zero_voxels` computation — at line 220 `std_maps`
is still a Python list, so `(std_maps==0)` is the bool False and the chained
`.sum(axis=0)` fails — hence the claimed dataset-wide intersection mask over
scans is never computed, applied, or written. -/
theorem C1_nonzero_voxels_attribute_error (inp : DDInput)
    (h : 3 ≤ (flatten_list inp.scan_data_list).length) :
    ddRun inp = { files := [], err := some line220err } :=
  ddRun_ge3 inp h

/-- Minimal valid scan record over a single voxel. -/
def sdOne : ScanData :=
  { temporal_std := [1], predicted_std := [1], corrected_CR_std := [1],
    random_CR_std := [1], DR_BOLD := [[1]], NPR_maps := [], tDOF := 1,
    seed_list := [], prior_maps := [[1]] }

/-- A 3-scan dataset input. -/
def ddInp3 : DDInput := ⟨[.leaf sdOne, .leaf sdOne, .leaf sdOne], []⟩

/-- A 2-scan dataset input. -/
def ddInp2 : DDInput := ⟨[.leaf sdOne, .leaf sdOne], []⟩

/-- Closed instance of C1: three valid scans still crash with the line-220
AttributeError. -/
theorem C1_nonzero_voxels_attribute_error_witness :
    ddRun ddInp3 = { files := [], err := some line220err } :=
  C1_nonzero_voxels_attribute_error ddInp3 (by decide)

/-- C2 (code bug): on 2 scan records the aggregation raises a ValueError —
the ordinary fatal exception path and the same exception class as
input-validation failures, not a distinct recoverable condition — leaving
zero artifacts; no empty/placeholder result set is produced even though the
message itself promises an empty figure. -/
theorem C2_insufficient_sample_raises_fatal_valueerror :
    ddRun ddInp2 = { files := [], err := some (.valueError insufficientSampleMsg) }
    ∧ (ddRun ddInp2).err ≠ none := by
  exact ⟨rfl, by decide⟩

/-- C3 (code bug): with 3 or more scan records the aggregation produces not
a single artifact — no DR figure or statistics table, no NPR or seed
artifact, not even the `non_zero_mask.nii.gz` volume — because the line-220
AttributeError aborts the run before the first write. -/
theorem C3_no_artifacts_past_gate (inp : DDInput)
    (h : 3 ≤ (flatten_list inp.scan_data_list).length) :
    (ddRun inp).files = [] ∧ (ddRun inp).err ≠ none := by
  rw [ddRun_ge3 inp h]
  exact ⟨rfl, by simp⟩

/-- Closed instance of C3: the 3-scan dataset yields no files and an
uncaught exception. -/
theorem C3_no_artifacts_past_gate_witness :
    (ddRun ddInp3).files = [] ∧ (ddRun ddInp3).err ≠ none :=
  C3_no_artifacts_past_gate ddInp3 (by decide)

/-- Cons unfolding of `listSum`. -/
theorem listSum_cons (a : ℚ) (t : List ℚ) : listSum (a :: t) = a + listSum t := rfl

/-- A sum of nonnegative rationals is nonnegative. -/
theorem listSum_nonneg (l : List ℚ) (h : ∀ x ∈ l, 0 ≤ x) : 0 ≤ listSum l := by
  induction l with
  | nil => exact le_refl 0
  | cons a t ih =>
    rw [listSum_cons]
    have ha := h a (List.mem_cons_self a t)
    have ht := ih (fun x hx => h x (List.mem_cons_of_mem a hx))
    linarith

/-- A zero sum of nonnegative rationals has all members zero. -/
theorem listSum_zero_mem (l : List ℚ) (h : ∀ x ∈ l, 0 ≤ x)
    (hz : listSum l = 0) : ∀ x ∈ l, x = 0 := by
  induction l with
  | nil => intro x hx; cases hx
  | cons a t ih =>
    have ha := h a (List.mem_cons_self a t)
    have hts := listSum_nonneg t (fun x hx => h x (List.mem_cons_of_mem a hx))
    rw [listSum_cons] at hz
    have ha0 : a = 0 := by linarith
    have htz : listSum t = 0 := by linarith
    intro x hx
    rcases List.mem_cons.mp hx with rfl | hxt
    · exact ha0
    · exact ih (fun y hy => h y (List.mem_cons_of_mem a hy)) htz x hxt

/-- Sum of a constant list. -/
theorem listSum_const (l : List ℚ) (c : ℚ) (h : ∀ x ∈ l, x = c) :
    listSum l = c * (l.length : ℚ) := by
  induction l with
  | nil => simp [listSum]
  | cons a t ih =>
    rw [listSum_cons, ih (fun x hx => h x (List.mem_cons_of_mem a hx)),
      h a (List.mem_cons_self a t)]
    simp only [List.length_cons]
    push_cast
    ring

/-- The sum of squared deviations vanishes exactly when all members are
equal (for a nonempty list). -/
theorem sumSqDev_eq_zero_iff (l : List ℚ) (hne : l ≠ []) :
    sumSqDev l = 0 ↔ ∀ a ∈ l, ∀ b ∈ l, a = b := by
  constructor
  · intro h a ha b hb
    have hall : ∀ x ∈ l, x = listMean l := by
      intro x hx
      have hmem := listSum_zero_mem
        (l.map (fun x => (x - listMean l) * (x - listMean l)))
        (by
          intro y hy
          obtain ⟨z, _, rfl⟩ := List.mem_map.mp hy
          exact mul_self_nonneg _)
        h
        ((x - listMean l) * (x - listMean l))
        (List.mem_map_of_mem _ hx)
      have := mul_self_eq_zero.mp hmem
      linarith
    rw [hall a ha, hall b hb]
  · intro h
    obtain ⟨c, hc⟩ : ∃ c, ∀ x ∈ l, x = c := by
      cases l with
      | nil => exact absurd rfl hne
      | cons a t => exact ⟨a, fun x hx => h x hx a (List.mem_cons_self a t)⟩
    have hlen : (l.length : ℚ) ≠ 0 := by
      have : l.length ≠ 0 := fun h0 => hne (List.length_eq_zero.mp h0)
      exact_mod_cast this
    have hmean : listMean l = c := by
      rw [listMean, listSum_const l c hc, mul_div_assoc, div_self hlen, mul_one]
    rw [sumSqDev]
    have hzs : ∀ y ∈ l.map (fun x => (x - listMean l) * (x - listMean l)), y = 0 := by
      intro y hy
      obtain ⟨z, hzm, rfl⟩ := List.mem_map.mp hy
      rw [hc z hzm, hmean]
      ring
    rw [listSum_const _ 0 hzs, zero_mul]

/-- The numpy zero-std test agrees with all-members-equal on nonempty
lists. -/
theorem npStdIsZero_iff (l : List ℚ) (hne : l ≠ []) :
    npStdIsZero l = true ↔ ∀ a ∈ l, ∀ b ∈ l, a = b := by
  cases l with
  | nil => exact absurd rfl hne
  | cons a t =>
    rw [npStdIsZero]
    rw [decide_eq_true_eq]
    exact sumSqDev_eq_zero_iff (a :: t) hne

/-- C4: in both covariate variable sets of the aggregation the tDOF column
and its name are appended exactly when tDOF varies across the dataset (some
two scans differ, i.e. the standard deviation over scans is nonzero); when
tDOF is identical in every scan the covariate is skipped entirely — it never
enters the covariate stack, so no correlation is computed for it. -/
theorem C4_tdof_appended_iff_varies (tdof_list : List ℚ) (hne : tdof_list ≠ []) :
    (("tDOF" ∈ corrVariableNames varSetNamesA tdof_list
        ↔ ∃ a ∈ tdof_list, ∃ b ∈ tdof_list, a ≠ b)
      ∧ ("tDOF" ∈ corrVariableNames varSetNamesB tdof_list
        ↔ ∃ a ∈ tdof_list, ∃ b ∈ tdof_list, a ≠ b))
    ∧ (∀ base : List (List (List ℚ)),
      ((∃ a ∈ tdof_list, ∃ b ∈ tdof_list, a ≠ b) →
        corrVariableStack base tdof_list = base ++ [tdof_list.map (fun x => [x])])
      ∧ ((∀ a ∈ tdof_list, ∀ b ∈ tdof_list, a = b) →
        corrVariableStack base tdof_list = base)) := by
  have hvar : npStdIsZero tdof_list = false ↔ ∃ a ∈ tdof_list, ∃ b ∈ tdof_list, a ≠ b := by
    rw [← Bool.not_eq_true, npStdIsZero_iff tdof_list hne]
    push_neg
    constructor
    · rintro ⟨a, ha, b, hb, hab⟩; exact ⟨a, ha, b, hb, hab⟩
    · rintro ⟨a, ha, b, hb, hab⟩; exact ⟨a, ha, b, hb, hab⟩
  refine ⟨⟨?_, ?_⟩, ?_⟩
  · cases hz : npStdIsZero tdof_list with
    | true =>
      rw [corrVariableNames, if_pos hz]
      have hall := (npStdIsZero_iff tdof_list hne).mp hz
      constructor
      · intro hmem; exact absurd hmem (by decide)
      · rintro ⟨a, ha, b, hb, hab⟩
        exact absurd (hall a ha b hb) hab
    | false =>
      rw [corrVariableNames, if_neg (by simp [hz])]
      simp only [List.mem_append, List.mem_singleton, or_true, true_iff]
      exact hvar.mp hz
  · cases hz : npStdIsZero tdof_list with
    | true =>
      rw [corrVariableNames, if_pos hz]
      have hall := (npStdIsZero_iff tdof_list hne).mp hz
      constructor
      · intro hmem; exact absurd hmem (by decide)
      · rintro ⟨a, ha, b, hb, hab⟩
        exact absurd (hall a ha b hb) hab
    | false =>
      rw [corrVariableNames, if_neg (by simp [hz])]
      simp only [List.mem_append, List.mem_singleton, or_true, true_iff]
      exact hvar.mp hz
  · intro base
    constructor
    · intro hvaries
      rw [corrVariableStack, if_neg (by simp [hvar.mpr hvaries])]
    · intro hconst
      rw [corrVariableStack, if_pos ((npStdIsZero_iff tdof_list hne).mpr hconst)]

/-- Closed instance of C4: with tDOF values 1 and 2 the name is appended,
with constant tDOF the stack is untouched. -/
theorem C4_tdof_appended_iff_varies_witness :
    "tDOF" ∈ corrVariableNames varSetNamesA [(1 : ℚ), 2]
    ∧ corrVariableStack [] [(1 : ℚ), 1] = [] :=
  ⟨((C4_tdof_appended_iff_varies [(1 : ℚ), 2] (by decide)).1.1).mpr
      ⟨1, by decide, 2, by decide, by norm_num⟩,
   ((C4_tdof_appended_iff_varies [(1 : ℚ), 1] (by decide)).2 []).2
      (by intro a ha b hb; fin_cases ha <;> fin_cases hb <;> rfl)⟩

/-- Erasure of the prior-maps field of a scan record, to state which fields
the aggregation statistics may depend on. -/
def erasePrior (sd : ScanData) : ScanData := { sd with prior_maps := [] }

/-- Two scan lists with equal prior-erased images have equal images under
every function that ignores the prior-maps field. -/
theorem map_eq_of_erase {α : Type} (f : ScanData → α)
    (hf : ∀ sd, f (erasePrior sd) = f sd) :
    ∀ (m1 m2 : List ScanData), m1.map erasePrior = m2.map erasePrior →
      m1.map f = m2.map f := by
  intro m1
  induction m1 with
  | nil =>
    intro m2 h
    cases m2 with
    | nil => rfl
    | cons b t2 => exact absurd h (by simp)
  | cons a t1 ih =>
    intro m2 h
    cases m2 with
    | nil => exact absurd h (by simp)
    | cons b t2 =>
      simp only [List.map_cons, List.cons.injEq] at h ⊢
      exact ⟨by rw [← hf a, h.1, hf b], ih t2 h.2⟩

/-- Scan record with two prior maps, for the reordering example. -/
def sdP1 : ScanData :=
  { temporal_std := [1, 1], predicted_std := [1, 1], corrected_CR_std := [1, 1],
    random_CR_std := [1, 1], DR_BOLD := [[1, 2]], NPR_maps := [], tDOF := 1,
    seed_list := [], prior_maps := [[1, 2], [3, 4]] }

/-- Scan record with one prior map. -/
def sdP2 : ScanData :=
  { temporal_std := [1, 1], predicted_std := [1, 1], corrected_CR_std := [1, 1],
    random_CR_std := [1, 1], DR_BOLD := [[2, 1]], NPR_maps := [], tDOF := 1,
    seed_list := [], prior_maps := [[1, 2]] }

/-- Scan record with one constant prior map. -/
def sdP3 : ScanData :=
  { temporal_std := [1, 1], predicted_std := [1, 1], corrected_CR_std := [1, 1],
    random_CR_std := [1, 1], DR_BOLD := [[3, 5]], NPR_maps := [], tDOF := 1,
    seed_list := [], prior_maps := [[1, 1]] }

/-- A scan order ending in the one-prior record. -/
def reorderListA : List ScanData := [sdP1, sdP2, sdP3]

/-- The reversed scan order, ending in the two-prior record. -/
def reorderListB : List ScanData := [sdP3, sdP2, sdP1]

/-- C9: in the aggregation statistics the prior network maps for the DR and
NPR comparisons are read from the last scan record of the flattened sequence
(the loop variable surviving the stacking loop): among all records'
prior-maps fields only the final record's can influence the results, and
reordering scan records whose prior-maps fields differ can change the
output. -/
theorem C9_prior_maps_read_from_last_record :
    (∀ (m1 m2 : List ScanData) (nzv : List Bool) (seeds : List (List ℚ)),
      m1.map erasePrior = m2.map erasePrior →
      m1.getLast?.map (fun sd => sd.prior_maps)
        = m2.getLast?.map (fun sd => sd.prior_maps) →
      ddBody m1 nzv seeds = ddBody m2 nzv seeds)
    ∧ ddBody reorderListA [true, true] [] ≠ ddBody reorderListB [true, true] [] := by
  constructor
  · intro m1 m2 nzv seeds hmap hlast
    have h1 := map_eq_of_erase (fun sd => applyMask nzv sd.temporal_std)
      (fun sd => rfl) m1 m2 hmap
    have h2 := map_eq_of_erase (fun sd => applyMask nzv sd.predicted_std)
      (fun sd => rfl) m1 m2 hmap
    have h3 := map_eq_of_erase (fun sd => applyMask nzv sd.corrected_CR_std)
      (fun sd => rfl) m1 m2 hmap
    have h4 := map_eq_of_erase (fun sd => applyMask nzv sd.random_CR_std)
      (fun sd => rfl) m1 m2 hmap
    have h5 := map_eq_of_erase (fun sd => sd.DR_BOLD.map (applyMask nzv))
      (fun sd => rfl) m1 m2 hmap
    have h6 := map_eq_of_erase (fun sd => sd.NPR_maps.map (applyMask nzv))
      (fun sd => rfl) m1 m2 hmap
    have h7 := map_eq_of_erase (fun sd => sd.seed_list.map (applyMask nzv))
      (fun sd => rfl) m1 m2 hmap
    have h8 := map_eq_of_erase (fun sd => sd.tDOF) (fun sd => rfl) m1 m2 hmap
    have h9 := map_eq_of_erase (fun sd => sd.NPR_maps.length)
      (fun sd => rfl) m1 m2 hmap
    simp only [ddBody]
    rw [h1, h2, h3, h4, h5, h6, h7, h8, h9, hlast]
  · intro hEq
    have hlen := congrArg List.length hEq
    have hA : (ddBody reorderListA [true, true] []).length = 5 := by decide
    have hB : (ddBody reorderListB [true, true] []).length = 9 := by decide
    rw [hA, hB] at hlen
    exact absurd hlen (by decide)

/-- Record equal to `sdP1` except in its prior maps. -/
def sdP1v : ScanData := { sdP1 with prior_maps := [[9, 9]] }

/-- Closed instance of C9: changing the prior maps of a non-final record
leaves the aggregation statistics unchanged. -/
theorem C9_prior_maps_read_from_last_record_witness :
    ddBody [sdP1, sdP3] [true, true] [] = ddBody [sdP1v, sdP3] [true, true] [] :=
  C9_prior_maps_read_from_last_record.1 [sdP1, sdP3] [sdP1v, sdP3] [true, true] []
    (by decide) (by decide)

end Rabies
